import Mathlib

/-!
# Verification of the HubSpot extraction pipeline (src/hubspot/controllers.js)

Shallow embedding of the contact-extraction pipeline: the attribution
formatter `formatContact`, the deal resolver `getDealsFromContact`, the
summary/detail join `insertAddedDateOnDetailedContacts`, the date renderer
`formattedDate`, and the pagination loop `loopContacts`.

External collaborators (`helpers.getURLParams`, `helpers.getHostName`, the
platform's local-timezone calendar decomposition used by the JS `Date`
getters) are passed in as a `Helpers` record, matching the spec's external
interface contracts.  Absent JS values (`undefined` / `null`) are modelled
as `Option.none`; a thrown exception is modelled as an `Option.none` result
of the enclosing operation.
-/

namespace Hubspot

/-- A HubSpot property value object `{value}`; `value` may be null. -/
structure PropValue where
  value : Option String
deriving Repr, DecidableEq

/-- A form submission record; only its `page-url` field is read. -/
structure FormSub where
  pageUrl : Option String
deriving Repr, DecidableEq

/-- The contact properties read by `formatContact` (controllers.js 197-296).
Each may be absent from the API payload. -/
structure Properties where
  hs_analytics_source : Option PropValue
  hs_analytics_first_url : Option PropValue
  hs_analytics_last_url : Option PropValue
  hs_analytics_first_referrer : Option PropValue
  hs_analytics_last_referrer : Option PropValue
  first_conversion_event_name : Option PropValue
deriving Repr, DecidableEq

/-- A contact summary from the recent-contacts listing: `{vid, addedAt}`. -/
structure Summary where
  vid : Nat
  addedAt : Int
deriving Repr, DecidableEq

/-- A detailed contact record from the batch endpoint (carries no `addedAt`).
`formSubmissions` models the `form-submissions` array, absent if the payload
lacks it. -/
structure Detail where
  vid : Nat
  properties : Properties
  formSubmissions : Option (List FormSub)
deriving Repr, DecidableEq

/-- An enriched contact: a `Detail` with the originating summary's `addedAt`
spread in by `insertAddedDateOnDetailedContacts` (controllers.js 160-168). -/
structure Contact where
  vid : Nat
  properties : Properties
  formSubmissions : Option (List FormSub)
  addedAt : Int
deriving Repr, DecidableEq

/-- Calendar decomposition of a timestamp as produced by the JS `Date`
getters under the platform's local timezone: `getFullYear`, `getMonth`
(0-based), `getDate`, `getHours`, `getMinutes`. -/
structure DateParts where
  year : Nat
  month0 : Nat
  day : Nat
  hour : Nat
  minute : Nat
deriving Repr, DecidableEq

/-- External collaborator contracts consumed by the formatter:
`helpers.getURLParams`, `helpers.getHostName`, and the platform local
timezone interpretation of a timestamp. -/
structure Helpers where
  getURLParams : Option String → List (String × String)
  getHostName : Option String → String
  localParts : Int → DateParts

/-- The formatted attribution fields added together by the object spread at
controllers.js 267-275. -/
structure Attrib where
  institution : Option String
  utm_source : Option String
  utm_campaign : Option String
  hsa_grp : Option String
  utm_content : Option String
deriving Repr, DecidableEq

/-- The formatted output row.  `attrib = none` means the five attribution
keys are absent from the JS object (the spread at 267-275 did not run);
`ad = none` means the `ad` key is absent (line 289 did not run). -/
structure FormattedContact where
  id : Nat
  analytics_source : Option String
  hs_url : String
  addedAt : String
  attrib : Option Attrib
  ad : Option (Option String)
deriving Repr, DecidableEq

/-- The keys present on the JS output object, in insertion order. -/
def keysOf (fc : FormattedContact) : List String :=
  ["id", "analytics_source", "hs_url", "addedAt"]
    ++ (match fc.attrib with
        | some _ => ["institution", "utm_source", "utm_campaign", "hsa_grp", "utm_content"]
        | none => [])
    ++ (match fc.ad with
        | some _ => ["ad"]
        | none => [])

/-- JS truthiness of a string-or-absent value: absent, null and the empty
string are falsy. -/
def jsTruthyStr : Option String → Bool
  | some s => s != ""
  | none => false

/-- JS `a || b` on string-or-absent values (controllers.js 273). -/
def jsOrStr (a b : Option String) : Option String :=
  if jsTruthyStr a then a else b

/-- First-some choice used to state association-list lookup precedence. -/
def optOr (a b : Option String) : Option String :=
  match a with
  | some v => some v
  | none => b

/-- `contact["form-submissions"][0] && contact["form-submissions"][0]["page-url"]`
(controllers.js 216-218). -/
def formSubmissionPageOf : List FormSub → Option String
  | fs :: _ => fs.pageUrl
  | [] => none

/-- The truthiness test guarding the attribution branch (controllers.js
221-227): the four analytics property objects are truthy when present; the
form-submission page is a string tested for truthiness. -/
def hasCandidate (props : Properties) (form_submission_page : Option String) : Bool :=
  props.hs_analytics_first_url.isSome || props.hs_analytics_last_url.isSome
    || props.hs_analytics_first_referrer.isSome || props.hs_analytics_last_referrer.isSome
    || jsTruthyStr form_submission_page

/-- The candidate URL list `landingPageUrls` (controllers.js 229-235), in
source order: first-touch URL, last-touch URL, first referrer, last
referrer, form-submission page.  `p && p.value` collapses an absent
property and a null value to `none`. -/
def candidateUrls (props : Properties) (form_submission_page : Option String) :
    List (Option String) :=
  [props.hs_analytics_first_url.bind PropValue.value,
   props.hs_analytics_last_url.bind PropValue.value,
   props.hs_analytics_first_referrer.bind PropValue.value,
   props.hs_analytics_last_referrer.bind PropValue.value,
   form_submission_page]

/-- The query-param accumulation loop (controllers.js 238-245): successive
object spreads `{...queryParams, ...getURLParams(lp)}`, so a later
candidate's entry shadows an earlier one.  The object is observed only
through key lookup; the spread is modelled by prepending, so that
`List.lookup` finds the latest binding first. -/
def queryParamsOf (H : Helpers) (urls : List (Option String)) : List (String × String) :=
  urls.foldl (fun acc lp => H.getURLParams lp ++ acc) []

/-- The fixed institution hostname table (controllers.js 248-254). -/
def INSTITUTIONS : List (String × String) :=
  [("br.digitalmarketinginstitute.com", "DMI"),
   ("dmi.espm.br", "ESPM"),
   ("gestaopublica.fecap.br", "Fecap"),
   ("posead.institutosingularidades.edu.br", "Singularidades"),
   ("cursopos.com", "FAT")]

/-- Institution resolution (controllers.js 257): when the last-touch URL
property is present, look up the hostname of its value; otherwise the
(absent) property itself, i.e. undefined. -/
def institutionOf (H : Helpers) (lastUrl : Option PropValue) : Option String :=
  match lastUrl with
  | some p => INSTITUTIONS.lookup (H.getHostName p.value)
  | none => none

/-- `hs_analytics_first_referrer && hs_analytics_first_referrer.value === "http://instagram.com/"`
(controllers.js 280-281). -/
def isInstagramReferrer : Option PropValue → Bool
  | some p => p.value == some ("http://instagram.com/")
  | none => false

/-- The attribution fields assembled at controllers.js 263-275. -/
def attribOf (H : Helpers) (props : Properties) (form_submission_page : Option String) :
    Attrib :=
  let queryParams := queryParamsOf H (candidateUrls props form_submission_page)
  { institution := institutionOf H props.hs_analytics_last_url
    utm_source := queryParams.lookup ("utm_source")
    utm_campaign := queryParams.lookup ("utm_campaign")
    hsa_grp := jsOrStr (queryParams.lookup ("hsa_grp")) (queryParams.lookup ("ad_group"))
    utm_content := queryParams.lookup ("utm_content") }

/-- The local `source` variable after the Instagram exception
(controllers.js 264, 278-284).  The reassignment happens after the output
object was built, so it is never written back into `utm_source`. -/
def sourceAfterOverride (H : Helpers) (props : Properties)
    (form_submission_page : Option String) : Option String :=
  let source := (queryParamsOf H (candidateUrls props form_submission_page)).lookup ("utm_source")
  if source == some ("facebook") && isInstagramReferrer props.hs_analytics_first_referrer then
    some ("instagram")
  else source

/-- The `ad` key as set by the LinkedIn exception (controllers.js 286-296):
present only when the post-override source is `"linkedin"` and the
first-conversion-event-name property is present. -/
def adOf (H : Helpers) (props : Properties) (form_submission_page : Option String) :
    Option (Option String) :=
  if sourceAfterOverride H props form_submission_page == some ("linkedin") then
    match props.first_conversion_event_name with
    | some p => some p.value
    | none => none
  else none

/-- The `hs_url` template (controllers.js 202). -/
def hsUrlOf (vid : Nat) : String :=
  "https://app.hubspot.com/contacts/6331207/contact/" ++ toString vid

/-- `String(num).padStart(2, "0")` (controllers.js 177). -/
def withZeros (n : Nat) : String :=
  let s := toString n
  if s.length < 2 then "0" ++ s else s

/-- The date renderer (controllers.js 175-190): `DD/MM/YYYY - HH:mm`,
zero-padded, from the local-timezone calendar decomposition. -/
def formattedDate (localParts : Int → DateParts) (date : Int) : String :=
  let d := localParts date
  withZeros d.day ++ "/" ++ withZeros (d.month0 + 1) ++ "/" ++ withZeros d.year
    ++ " - " ++ withZeros d.hour ++ ":" ++ withZeros d.minute

/-- The contact formatter (controllers.js 197-299).  Dereferencing
`contact.properties.hs_analytics_source.value` (line 201) and
`contact["form-submissions"][0]` (line 217) throws when the property or
the array is absent; the throw is modelled as `none`. -/
def formatContact (H : Helpers) (contact : Contact) : Option FormattedContact :=
  match contact.properties.hs_analytics_source, contact.formSubmissions with
  | some hs_analytics_source, some formSubmissions =>
    let form_submission_page := formSubmissionPageOf formSubmissions
    let base : FormattedContact :=
      { id := contact.vid
        analytics_source := hs_analytics_source.value
        hs_url := hsUrlOf contact.vid
        addedAt := formattedDate H.localParts contact.addedAt
        attrib := none
        ad := none }
    if hasCandidate contact.properties form_submission_page then
      some { base with
        attrib := some (attribOf H contact.properties form_submission_page)
        ad := adOf H contact.properties form_submission_page }
    else
      some base
  | _, _ => none

/-! ## Deal resolution (controllers.js 55-87) -/

/-- A stage record from the pipeline catalog. -/
structure Stage where
  stageId : String
deriving Repr, DecidableEq

/-- A pipeline record from the catalog. -/
structure Pipeline where
  pipelineId : String
  stages : List Stage
deriving Repr, DecidableEq

/-- The deal properties read by the resolver: `properties.pipeline.value`
and `properties.dealstage.value`, flattened to the string values. -/
structure DealProps where
  pipeline : String
  dealstage : String
deriving Repr, DecidableEq

/-- A raw deal as returned by `getDeal`. -/
structure RawDeal where
  dealId : Nat
  properties : DealProps
deriving Repr, DecidableEq

/-- A deal after the resolver attached `deal.pipeline` and `deal.stage`
(controllers.js 71-78).  `stage` stays `none` when the dealstage id is not
found in the pipeline's stages: `Array.find` just yields undefined. -/
structure Deal where
  dealId : Nat
  properties : DealProps
  pipeline : Pipeline
  stage : Option Stage
deriving Repr, DecidableEq

/-- The per-contact deal resolution loop (controllers.js 55-87), over the
association lookup result `dealIds`, the pipeline catalog, and the
`getDeal` collaborator (`none` models a failed fetch).  When the pipeline
id is not in the catalog, `pipelines.find` yields undefined and the access
`deal.pipeline.stages` (line 76) throws: modelled as `none`.  A missing
stage id does not throw: the deal is pushed with `stage` undefined. -/
def getDealsFromContact : List Nat → List Pipeline → (Nat → Option RawDeal) → Option (List Deal)
  | [], _, _ => some []
  | dealId :: rest, pipelines, getDeal =>
    match getDeal dealId with
    | none => none
    | some deal =>
      match pipelines.find? (fun p => p.pipelineId == deal.properties.pipeline) with
      | none => none
      | some pipelineDetail =>
        let stage := pipelineDetail.stages.find? (fun s => s.stageId == deal.properties.dealstage)
        match getDealsFromContact rest pipelines getDeal with
        | none => none
        | some deals =>
          some ({ dealId := deal.dealId
                  properties := deal.properties
                  pipeline := pipelineDetail
                  stage := stage } :: deals)

/-! ## Summary/detail join and the pagination loop (controllers.js 160-168, 329-398) -/

/-- The join of `addedAt` from each summary onto its matching detail
(controllers.js 160-168): `contacts.find(c => c.vid === dc.vid)` followed
by `{...dc, addedAt: contact.addedAt}`.  When no summary matches,
`contact.addedAt` throws: modelled as `none`. -/
def insertAddedDateOnDetailedContacts :
    List Summary → List Detail → Option (List Contact)
  | _, [] => some []
  | contacts, dc :: rest =>
    match contacts.find? (fun c => c.vid == dc.vid) with
    | none => none
    | some contact =>
      match insertAddedDateOnDetailedContacts contacts rest with
      | none => none
      | some tail =>
        some ({ vid := dc.vid
                properties := dc.properties
                formSubmissions := dc.formSubmissions
                addedAt := contact.addedAt } :: tail)

/-- JS `c.addedAt <= timeStop` (controllers.js 350-352): when `timeStop`
is null, JS coerces it to `0` in the relational comparison. -/
def jsLeNull (a : Int) (t : Option Int) : Bool :=
  a ≤ t.getD 0

/-- `contactsDetailedInfo.findIndex(c => c.addedAt <= timeStop)`
(controllers.js 350-352); `none` models `-1`. -/
def timeStopIndexOf (batch : List Contact) (timeStop : Option Int) : Option Nat :=
  batch.findIdx? (fun c => jsLeNull c.addedAt timeStop)

/-- `contactsDetailedInfo.findIndex(c => c.vid === vidStop)`
(controllers.js 361); strict equality against a null `vidStop` is false. -/
def vidStopIndexOf (batch : List Contact) (vidStop : Option Nat) : Option Nat :=
  batch.findIdx? (fun c => vidStop == some c.vid)

/-- The batch truncation (controllers.js 349-367).  Lines 355-358 compute a
time-stop slice into `newContacts`, but lines 364-367 assign `newContacts`
again from the ORIGINAL `contactsDetailedInfo` in both arms, so the
time-stop slice is a dead store: only the vid slice ever survives. -/
def newContactsOf (batch : List Contact) (vidStop : Option Nat) (timeStop : Option Int) :
    List Contact :=
  let _timeSliced :=
    match timeStopIndexOf batch timeStop with
    | some i => batch.take i
    | none => batch
  match vidStopIndexOf batch vidStop with
  | some i => batch.take i
  | none => batch

/-- One page of upstream data as consumed by the loop: the summaries
returned by `getContacts`, the details returned by the batch endpoint for
those vids, the `has-more` flag, and the next cursor pair. -/
structure PageData where
  contacts : List Summary
  details : List Detail
  hasMore : Bool
  vidOffset : Option Nat
  timeOffset : Option Int
deriving Repr, DecidableEq

/-- The pagination loop (controllers.js 329-398) over the sequence of pages
the upstream returns for the successive cursors.  Each iteration enriches
the page, truncates it, formats the retained records (sunk externally; a
formatter throw aborts), appends the retained DETAIL records to the
accumulator, and recurses only when `has-more` is set and neither stop
index was found.  An exhausted page list models a failed fetch. -/
def loopContacts (H : Helpers) :
    List PageData → Option Nat → Option Int → List Contact → Option (List Contact)
  | [], _, _, _ => none
  | page :: rest, vidStop, timeStop, acc =>
    match insertAddedDateOnDetailedContacts page.contacts page.details with
    | none => none
    | some contactsDetailedInfo =>
      let newContacts := newContactsOf contactsDetailedInfo vidStop timeStop
      match newContacts.mapM (formatContact H) with
      | none => none
      | some _formattedContacts =>
        let contacts := acc ++ newContacts
        if page.hasMore && (vidStopIndexOf contactsDetailedInfo vidStop).isNone
            && (timeStopIndexOf contactsDetailedInfo timeStop).isNone then
          loopContacts H rest vidStop timeStop contacts
        else
          some contacts

/-! ## Concrete sample data

A concrete `Helpers` instance (a table-driven URL-parameter parser and
hostname extractor satisfying the collaborator contracts on the sample
URLs) and sample contacts, pages and deals used to evaluate the pipeline
at specific inputs. -/

/-- A fixed calendar decomposition: 2021-03-05 09:07 local time. -/
def sampleParts : DateParts :=
  { year := 2021, month0 := 2, day := 5, hour := 9, minute := 7 }

/-- Concrete collaborators: `getURLParams` resolves the sample URLs to
their query maps and everything else (including absent input) to the empty
map; `getHostName` extracts the hostname of the sample ESPM URL. -/
def H0 : Helpers :=
  { getURLParams := fun u =>
      match u with
      | some ("http://first.example/?utm_source=a") => [("utm_source", "a")]
      | some ("http://last.example/?utm_source=b") => [("utm_source", "b")]
      | some ("https://x.example/?utm_source=facebook") => [("utm_source", "facebook")]
      | some ("https://y.example/?utm_source=linkedin") => [("utm_source", "linkedin")]
      | _ => []
    getHostName := fun u =>
      match u with
      | some ("http://dmi.espm.br/page") => "dmi.espm.br"
      | _ => "unknown.example"
    localParts := fun _ => sampleParts }

/-- Properties with only the required analytics-source set. -/
def propsMin : Properties :=
  { hs_analytics_source := some { value := some ("OFFLINE") }
    hs_analytics_first_url := none
    hs_analytics_last_url := none
    hs_analytics_first_referrer := none
    hs_analytics_last_referrer := none
    first_conversion_event_name := none }

/-- Properties with no analytics-source at all. -/
def propsNone : Properties :=
  { hs_analytics_source := none
    hs_analytics_first_url := none
    hs_analytics_last_url := none
    hs_analytics_first_referrer := none
    hs_analytics_last_referrer := none
    first_conversion_event_name := none }

/-- Detail records for the pagination samples. -/
def c1d1 : Detail := { vid := 1, properties := propsMin, formSubmissions := some [] }

def c1d2 : Detail := { vid := 2, properties := propsMin, formSubmissions := some [] }

/-- The enriched forms of `c1d1`/`c1d2` with their summaries' timestamps. -/
def c1e1 : Contact :=
  { vid := 1, properties := propsMin, formSubmissions := some [], addedAt := 100 }

def c1e2 : Contact :=
  { vid := 2, properties := propsMin, formSubmissions := some [], addedAt := 50 }

/-- A single page whose second contact matches a time stop of 60. -/
def c1page : PageData :=
  { contacts := [{ vid := 1, addedAt := 100 }, { vid := 2, addedAt := 50 }]
    details := [c1d1, c1d2]
    hasMore := true
    vidOffset := none
    timeOffset := none }

/-- A contact with no candidate URLs, no form page and no conversion name. -/
def c2c : Contact :=
  { vid := 7, properties := propsMin, formSubmissions := some [], addedAt := 0 }

/-- A contact whose properties lack `hs_analytics_source`. -/
def cNoSrc : Contact :=
  { vid := 9, properties := propsNone, formSubmissions := some [], addedAt := 0 }

/-- Page 1 of the two-page sample run: reports more data. -/
def c3p1 : PageData :=
  { contacts := [{ vid := 1, addedAt := 100 }]
    details := [c1d1]
    hasMore := true
    vidOffset := some 2
    timeOffset := some 90 }

/-- Page 2 of the two-page sample run: reports no more data. -/
def c3p2 : PageData :=
  { contacts := [{ vid := 2, addedAt := 90 }]
    details := [c1d2]
    hasMore := false
    vidOffset := none
    timeOffset := none }

/-- The enriched single contact of page 2 of the sample run. -/
def c3e2 : Contact :=
  { vid := 2, properties := propsMin, formSubmissions := some [], addedAt := 90 }

/-- A one-pipeline catalog whose only stage is `"won"`. -/
def c4pipelines : List Pipeline :=
  [{ pipelineId := "default", stages := [{ stageId := "won" }] }]

/-- A raw deal whose dealstage `"lost"` is absent from the catalog. -/
def c4deal : RawDeal :=
  { dealId := 10, properties := { pipeline := "default", dealstage := "lost" } }

/-- A raw deal referencing a pipeline absent from the catalog. -/
def c4deal2 : RawDeal :=
  { dealId := 11, properties := { pipeline := "ghost", dealstage := "won" } }

/-- Deal fetcher resolving id 10 to `c4deal`. -/
def c4fetch : Nat → Option RawDeal := fun id => if id == 10 then some c4deal else none

/-- Deal fetcher resolving id 11 to `c4deal2`. -/
def c4fetch2 : Nat → Option RawDeal := fun id => if id == 11 then some c4deal2 else none

/-- Contact whose merged source is facebook with an Instagram first referrer. -/
def c5props : Properties :=
  { hs_analytics_source := some { value := some ("OFFLINE") }
    hs_analytics_first_url := some { value := some ("https://x.example/?utm_source=facebook") }
    hs_analytics_last_url := none
    hs_analytics_first_referrer := some { value := some ("http://instagram.com/") }
    hs_analytics_last_referrer := none
    first_conversion_event_name := none }

def c5c : Contact :=
  { vid := 5, properties := c5props, formSubmissions := some [], addedAt := 0 }

/-- Contact whose last-touch URL has hostname `dmi.espm.br`. -/
def c6props : Properties :=
  { hs_analytics_source := some { value := some ("OFFLINE") }
    hs_analytics_first_url := none
    hs_analytics_last_url := some { value := some ("http://dmi.espm.br/page") }
    hs_analytics_first_referrer := none
    hs_analytics_last_referrer := none
    first_conversion_event_name := none }

def c6c : Contact :=
  { vid := 6, properties := c6props, formSubmissions := some [], addedAt := 0 }

/-- Contact with `utm_source=a` on the first-touch URL and `utm_source=b`
on the last-touch URL. -/
def c7props : Properties :=
  { hs_analytics_source := some { value := some ("OFFLINE") }
    hs_analytics_first_url := some { value := some ("http://first.example/?utm_source=a") }
    hs_analytics_last_url := some { value := some ("http://last.example/?utm_source=b") }
    hs_analytics_first_referrer := none
    hs_analytics_last_referrer := none
    first_conversion_event_name := none }

def c7c : Contact :=
  { vid := 77, properties := c7props, formSubmissions := some [], addedAt := 0 }

/-- Contact with a linkedin merged source and a conversion-event name. -/
def c8props : Properties :=
  { hs_analytics_source := some { value := some ("OFFLINE") }
    hs_analytics_first_url := some { value := some ("https://y.example/?utm_source=linkedin") }
    hs_analytics_last_url := none
    hs_analytics_first_referrer := none
    hs_analytics_last_referrer := none
    first_conversion_event_name := some { value := some ("Webinar X") } }

def c8c : Contact :=
  { vid := 8, properties := c8props, formSubmissions := some [], addedAt := 0 }

/-! ## General lemmas -/

/-- Lookup in an appended association list prefers the left list. -/
theorem lookup_append (k : String) :
    ∀ (l1 l2 : List (String × String)),
      (l1 ++ l2).lookup k = optOr (l1.lookup k) (l2.lookup k)
  | [], l2 => by simp [List.lookup, optOr]
  | (a, b) :: t, l2 => by
    cases h : k == a with
    | true => simp [List.lookup, h, optOr]
    | false => simp [List.lookup, h, lookup_append k t l2]

/-- When the vid stop finds no index, the (buggy) truncation keeps the
whole batch. -/
theorem newContactsOf_of_vid_none {batch : List Contact} {vs : Option Nat} {ts : Option Int}
    (h : vidStopIndexOf batch vs = none) : newContactsOf batch vs ts = batch := by
  simp [newContactsOf, h]

/-- When the vid stop finds an index, the truncation takes that prefix of
the original batch, whatever the time stop found. -/
theorem newContactsOf_of_vid_some {batch : List Contact} {vs : Option Nat} {ts : Option Int}
    {i : Nat} (h : vidStopIndexOf batch vs = some i) :
    newContactsOf batch vs ts = batch.take i := by
  simp [newContactsOf, h]

/-- Shape of `formatContact` when the required fields are present and some
candidate URL is present: the template plus the attribution spread and the
`ad` key as the LinkedIn exception leaves it. -/
theorem formatContact_branch (H : Helpers) (c : Contact) (src : PropValue)
    (subs : List FormSub)
    (h1 : c.properties.hs_analytics_source = some src)
    (h2 : c.formSubmissions = some subs)
    (hb : hasCandidate c.properties (formSubmissionPageOf subs) = true) :
    formatContact H c = some
      { id := c.vid
        analytics_source := src.value
        hs_url := hsUrlOf c.vid
        addedAt := formattedDate H.localParts c.addedAt
        attrib := some (attribOf H c.properties (formSubmissionPageOf subs))
        ad := adOf H c.properties (formSubmissionPageOf subs) } := by
  simp only [formatContact, h1, h2, hb, if_true]

/-- Shape of `formatContact` when the required fields are present and no
candidate URL is present: exactly the template record. -/
theorem formatContact_nobranch (H : Helpers) (c : Contact) (src : PropValue)
    (subs : List FormSub)
    (h1 : c.properties.hs_analytics_source = some src)
    (h2 : c.formSubmissions = some subs)
    (hb : hasCandidate c.properties (formSubmissionPageOf subs) = false) :
    formatContact H c = some
      { id := c.vid
        analytics_source := src.value
        hs_url := hsUrlOf c.vid
        addedAt := formattedDate H.localParts c.addedAt
        attrib := none
        ad := none } := by
  simp only [formatContact, h1, h2, hb, Bool.false_eq_true, if_false]

/-- Every successful `formatContact` output renders `addedAt` with
`formattedDate` from the enriched contact's timestamp. -/
theorem formatContact_addedAt (H : Helpers) (c : Contact) (fc : FormattedContact)
    (h : formatContact H c = some fc) :
    fc.addedAt = formattedDate H.localParts c.addedAt := by
  cases hs : c.properties.hs_analytics_source with
  | none =>
    rw [formatContact, hs] at h
    cases c.formSubmissions <;> simp at h
  | some src =>
    cases hf : c.formSubmissions with
    | none =>
      rw [formatContact, hs, hf] at h
      simp at h
    | some subs =>
      cases hb : hasCandidate c.properties (formSubmissionPageOf subs) with
      | true =>
        rw [formatContact_branch H c src subs hs hf hb] at h
        cases h
        rfl
      | false =>
        rw [formatContact_nobranch H c src subs hs hf hb] at h
        cases h
        rfl

/-! ## Claim theorems -/

/-- Claim C1: the claim says a page with no vid match but a time match at
index `ti` is truncated to the prefix before `ti`.  On the code this
fails: on a two-contact page whose second contact matches `timeStop = 60`
(and no vid stop), the time-stop index is found at 1, yet the batch kept,
forwarded and accumulated is the WHOLE page, not the one-element prefix --
the slice computed at controllers.js 355-358 is overwritten at 364-367.
The loop still halts on the match, so the untruncated page is returned. -/
theorem c1_time_slice_overwritten :
    timeStopIndexOf [c1e1, c1e2] (some 60) = some 1 ∧
    vidStopIndexOf [c1e1, c1e2] none = none ∧
    newContactsOf [c1e1, c1e2] none (some 60) = [c1e1, c1e2] ∧
    newContactsOf [c1e1, c1e2] none (some 60) ≠ List.take 1 [c1e1, c1e2] ∧
    loopContacts H0 [c1page] none (some 60) [] = some [c1e1, c1e2] := by
  decide

/-- Claim C2 counterexample: on a contact with no candidate URLs, no form
page and no conversion-event name, the returned record's key set is
`{id, analytics_source, hs_url, addedAt}` -- the template at
controllers.js 199-204 always includes `analytics_source`, so the output
is NOT exactly `{id, hs_url, addedAt}` as the claim states. -/
theorem c2_counterexample :
    (formatContact H0 c2c).map keysOf = some ["id", "analytics_source", "hs_url", "addedAt"] ∧
    (formatContact H0 c2c).map keysOf ≠ some ["id", "hs_url", "addedAt"] := by
  decide

/-- Claim C2 (amended): for every contact in which none of the five
candidate URLs is present (and no conversion-event name), `formatContact`
returns exactly the minimal template record
`{id, analytics_source, hs_url, addedAt}` -- no attribution keys, no `ad`
key -- as a normal (non-error) return. -/
theorem c2_minimal_record (H : Helpers) (c : Contact) (src : PropValue) (subs : List FormSub)
    (h1 : c.properties.hs_analytics_source = some src)
    (h2 : c.formSubmissions = some subs)
    (hfu : c.properties.hs_analytics_first_url = none)
    (hlu : c.properties.hs_analytics_last_url = none)
    (hfr : c.properties.hs_analytics_first_referrer = none)
    (hlr : c.properties.hs_analytics_last_referrer = none)
    (hfs : jsTruthyStr (formSubmissionPageOf subs) = false)
    (_hconv : c.properties.first_conversion_event_name = none) :
    formatContact H c = some
      { id := c.vid
        analytics_source := src.value
        hs_url := hsUrlOf c.vid
        addedAt := formattedDate H.localParts c.addedAt
        attrib := none
        ad := none } ∧
    ∀ fc, formatContact H c = some fc →
      keysOf fc = ["id", "analytics_source", "hs_url", "addedAt"] := by
  have hb : hasCandidate c.properties (formSubmissionPageOf subs) = false := by
    simp [hasCandidate, hfu, hlu, hfr, hlr, hfs]
  refine ⟨formatContact_nobranch H c src subs h1 h2 hb, ?_⟩
  intro fc hfc
  rw [formatContact_nobranch H c src subs h1 h2 hb] at hfc
  cases hfc
  rfl

/-- Claim C2 witness: the amended claim holds at a concrete contact. -/
theorem c2_minimal_record_witness :
    formatContact H0 c2c = some
      { id := 7
        analytics_source := some ("OFFLINE")
        hs_url := hsUrlOf 7
        addedAt := formattedDate H0.localParts 0
        attrib := none
        ad := none } :=
  (c2_minimal_record H0 c2c { value := some ("OFFLINE") } [] rfl rfl rfl rfl rfl rfl rfl
    rfl).1

/-- Claim C10: `formatContact` unconditionally dereferences the
analytics-source property and the form-submissions array: it throws
(models as `none`) when either is absent, and every successful output
carries `analytics_source` equal to that property's value. -/
theorem c10_analytics_source_precondition (H : Helpers) (c : Contact) :
    (c.properties.hs_analytics_source = none ∨ c.formSubmissions = none →
      formatContact H c = none) ∧
    (∀ src subs, c.properties.hs_analytics_source = some src →
      c.formSubmissions = some subs →
      ∃ fc, formatContact H c = some fc ∧ fc.analytics_source = src.value) := by
  constructor
  · intro h
    rcases h with h | h
    · rw [formatContact, h]
    · rw [formatContact, h]
      cases c.properties.hs_analytics_source <;> rfl
  · intro src subs h1 h2
    cases hb : hasCandidate c.properties (formSubmissionPageOf subs) with
    | true => exact ⟨_, formatContact_branch H c src subs h1 h2 hb, rfl⟩
    | false => exact ⟨_, formatContact_nobranch H c src subs h1 h2 hb, rfl⟩

/-- Claim C10 witness: the missing-property case throws and the present
case carries the property's value. -/
theorem c10_analytics_source_precondition_witness :
    formatContact H0 cNoSrc = none ∧
    ∃ fc, formatContact H0 c2c = some fc ∧ fc.analytics_source = some ("OFFLINE") :=
  ⟨(c10_analytics_source_precondition H0 cNoSrc).1 (Or.inl rfl),
   (c10_analytics_source_precondition H0 c2c).2 { value := some ("OFFLINE") } [] rfl rfl⟩

/-- Claim C5: when the merged `utm_source` is `"facebook"` and the first
referrer is exactly `"http://instagram.com/"`, only the local `source`
variable becomes `"instagram"` (controllers.js 278-284, after the output
object was already built at 267-275); the returned record's `utm_source`
still holds the merged value `"facebook"`, not `"instagram"`. -/
theorem c5_instagram_override_local_only (H : Helpers) (c : Contact) (src : PropValue)
    (subs : List FormSub)
    (h1 : c.properties.hs_analytics_source = some src)
    (h2 : c.formSubmissions = some subs)
    (hb : hasCandidate c.properties (formSubmissionPageOf subs) = true)
    (hsrc : (queryParamsOf H (candidateUrls c.properties (formSubmissionPageOf subs))).lookup
      ("utm_source") = some ("facebook"))
    (href : isInstagramReferrer c.properties.hs_analytics_first_referrer = true) :
    sourceAfterOverride H c.properties (formSubmissionPageOf subs) = some ("instagram") ∧
    ∃ fc, formatContact H c = some fc ∧ ∃ a, fc.attrib = some a ∧
      a.utm_source = some ("facebook") ∧ a.utm_source ≠ some ("instagram") := by
  constructor
  · simp [sourceAfterOverride, hsrc, href]
  · refine ⟨_, formatContact_branch H c src subs h1 h2 hb,
      attribOf H c.properties (formSubmissionPageOf subs), rfl, ?_, ?_⟩
    · simp [attribOf, hsrc]
    · simp [attribOf, hsrc]

/-- Claim C5 witness: concrete facebook-source contact with the Instagram
first referrer. -/
theorem c5_instagram_override_local_only_witness :
    sourceAfterOverride H0 c5c.properties (formSubmissionPageOf []) = some ("instagram") ∧
    ∃ fc, formatContact H0 c5c = some fc ∧ ∃ a, fc.attrib = some a ∧
      a.utm_source = some ("facebook") ∧ a.utm_source ≠ some ("instagram") :=
  c5_instagram_override_local_only H0 c5c { value := some ("OFFLINE") } [] rfl rfl
    (by decide) (by decide) (by decide)

/-- Claim C6: with some candidate URL present, the output's `institution`
is determined solely by looking the hostname of the last-touch URL up in
the fixed table (controllers.js 248-257); an absent last-touch URL or an
unmatched hostname yields no institution, still a normal return. -/
theorem c6_institution_lookup (H : Helpers) (c : Contact) (src : PropValue)
    (subs : List FormSub)
    (h1 : c.properties.hs_analytics_source = some src)
    (h2 : c.formSubmissions = some subs)
    (hb : hasCandidate c.properties (formSubmissionPageOf subs) = true) :
    (∃ fc, formatContact H c = some fc ∧ ∃ a, fc.attrib = some a ∧
      a.institution = institutionOf H c.properties.hs_analytics_last_url) ∧
    (∀ p, c.properties.hs_analytics_last_url = some p →
      institutionOf H c.properties.hs_analytics_last_url
        = INSTITUTIONS.lookup (H.getHostName p.value)) ∧
    (c.properties.hs_analytics_last_url = none →
      institutionOf H c.properties.hs_analytics_last_url = none) ∧
    INSTITUTIONS.lookup ("br.digitalmarketinginstitute.com") = some ("DMI") ∧
    INSTITUTIONS.lookup ("dmi.espm.br") = some ("ESPM") ∧
    INSTITUTIONS.lookup ("gestaopublica.fecap.br") = some ("Fecap") ∧
    INSTITUTIONS.lookup ("posead.institutosingularidades.edu.br") = some ("Singularidades") ∧
    INSTITUTIONS.lookup ("cursopos.com") = some ("FAT") ∧
    INSTITUTIONS.lookup ("unknown.example.com") = none := by
  refine ⟨⟨_, formatContact_branch H c src subs h1 h2 hb,
      attribOf H c.properties (formSubmissionPageOf subs), rfl, rfl⟩,
    ?_, ?_, by decide, by decide, by decide, by decide, by decide, by decide⟩
  · intro p hp
    simp [institutionOf, hp]
  · intro hp
    simp [institutionOf, hp]

/-- Claim C6 witness: a contact whose last-touch URL has hostname
`dmi.espm.br` resolves institution `"ESPM"`. -/
theorem c6_institution_lookup_witness :
    (∃ fc, formatContact H0 c6c = some fc ∧ ∃ a, fc.attrib = some a ∧
      a.institution = institutionOf H0 c6c.properties.hs_analytics_last_url) ∧
    institutionOf H0 c6c.properties.hs_analytics_last_url = some ("ESPM") :=
  ⟨(c6_institution_lookup H0 c6c { value := some ("OFFLINE") } [] rfl rfl (by decide)).1,
   by decide⟩

/-- Claim C7: the attribution parameters are the query parameters of the
five candidate URLs (in the fixed order first-touch URL, last-touch URL,
first referrer, last referrer, form page) merged left-to-right with later
candidates overwriting earlier ones on key collision; in particular
first-url `utm_source=a` with last-url `utm_source=b` resolves to `"b"`. -/
theorem c7_param_merge (H : Helpers) (c : Contact) (src : PropValue) (subs : List FormSub)
    (h1 : c.properties.hs_analytics_source = some src)
    (h2 : c.formSubmissions = some subs)
    (hb : hasCandidate c.properties (formSubmissionPageOf subs) = true) :
    (∃ fc, formatContact H c = some fc ∧
      fc.attrib = some (attribOf H c.properties (formSubmissionPageOf subs)) ∧
      (attribOf H c.properties (formSubmissionPageOf subs)).utm_source
        = (queryParamsOf H (candidateUrls c.properties (formSubmissionPageOf subs))).lookup
            ("utm_source") ∧
      (attribOf H c.properties (formSubmissionPageOf subs)).utm_campaign
        = (queryParamsOf H (candidateUrls c.properties (formSubmissionPageOf subs))).lookup
            ("utm_campaign") ∧
      (attribOf H c.properties (formSubmissionPageOf subs)).utm_content
        = (queryParamsOf H (candidateUrls c.properties (formSubmissionPageOf subs))).lookup
            ("utm_content") ∧
      (attribOf H c.properties (formSubmissionPageOf subs)).hsa_grp
        = jsOrStr
            ((queryParamsOf H (candidateUrls c.properties (formSubmissionPageOf subs))).lookup
              ("hsa_grp"))
            ((queryParamsOf H (candidateUrls c.properties (formSubmissionPageOf subs))).lookup
              ("ad_group"))) ∧
    (candidateUrls c.properties (formSubmissionPageOf subs) =
      [c.properties.hs_analytics_first_url.bind PropValue.value,
       c.properties.hs_analytics_last_url.bind PropValue.value,
       c.properties.hs_analytics_first_referrer.bind PropValue.value,
       c.properties.hs_analytics_last_referrer.bind PropValue.value,
       formSubmissionPageOf subs]) ∧
    (∀ u0 u1 u2 u3 u4 k,
      (queryParamsOf H [u0, u1, u2, u3, u4]).lookup k =
        optOr ((H.getURLParams u4).lookup k)
          (optOr ((H.getURLParams u3).lookup k)
            (optOr ((H.getURLParams u2).lookup k)
              (optOr ((H.getURLParams u1).lookup k) ((H.getURLParams u0).lookup k))))) ∧
    (∀ u0 u1 u2 u3 u4,
      (H.getURLParams u0).lookup ("utm_source") = some ("a") →
      (H.getURLParams u1).lookup ("utm_source") = some ("b") →
      (H.getURLParams u2).lookup ("utm_source") = none →
      (H.getURLParams u3).lookup ("utm_source") = none →
      (H.getURLParams u4).lookup ("utm_source") = none →
      (queryParamsOf H [u0, u1, u2, u3, u4]).lookup ("utm_source") = some ("b")) := by
  have merge : ∀ u0 u1 u2 u3 u4 k,
      (queryParamsOf H [u0, u1, u2, u3, u4]).lookup k =
        optOr ((H.getURLParams u4).lookup k)
          (optOr ((H.getURLParams u3).lookup k)
            (optOr ((H.getURLParams u2).lookup k)
              (optOr ((H.getURLParams u1).lookup k) ((H.getURLParams u0).lookup k)))) := by
    intro u0 u1 u2 u3 u4 k
    simp only [queryParamsOf, List.foldl]
    rw [List.append_nil, lookup_append, lookup_append, lookup_append, lookup_append]
  refine ⟨⟨_, formatContact_branch H c src subs h1 h2 hb, rfl, rfl, rfl, rfl, rfl⟩,
    rfl, merge, ?_⟩
  intro u0 u1 u2 u3 u4 ha hbq hcq hdq heq
  rw [merge, ha, hbq, hcq, hdq, heq]
  rfl

/-- Claim C7 witness: the merge gives `"b"` for the sample contact and
candidate URLs. -/
theorem c7_param_merge_witness :
    (queryParamsOf H0 [some ("http://first.example/?utm_source=a"),
        some ("http://last.example/?utm_source=b"), none, none, none]).lookup ("utm_source")
      = some ("b") ∧
    (attribOf H0 c7c.properties (formSubmissionPageOf [])).utm_source = some ("b") :=
  ⟨(c7_param_merge H0 c7c { value := some ("OFFLINE") } [] rfl rfl (by decide)).2.2.2
      (some ("http://first.example/?utm_source=a")) (some ("http://last.example/?utm_source=b"))
      none none none (by decide) (by decide) (by decide) (by decide) (by decide),
   by decide⟩

/-- Claim C8: when the resolved source is `"linkedin"`, the `ad` key is
set to the first-conversion-event-name's value if that property is
present, and is absent from the output otherwise (controllers.js
286-296). -/
theorem c8_linkedin_ad (H : Helpers) (c : Contact) (src : PropValue) (subs : List FormSub)
    (h1 : c.properties.hs_analytics_source = some src)
    (h2 : c.formSubmissions = some subs)
    (hb : hasCandidate c.properties (formSubmissionPageOf subs) = true)
    (hsrc : (queryParamsOf H (candidateUrls c.properties (formSubmissionPageOf subs))).lookup
      ("utm_source") = some ("linkedin")) :
    (∀ p, c.properties.first_conversion_event_name = some p →
      ∃ fc, formatContact H c = some fc ∧ fc.ad = some p.value ∧ ("ad") ∈ keysOf fc) ∧
    (c.properties.first_conversion_event_name = none →
      ∃ fc, formatContact H c = some fc ∧ fc.ad = none ∧ ("ad") ∉ keysOf fc) := by
  have hso : sourceAfterOverride H c.properties (formSubmissionPageOf subs)
      = some ("linkedin") := by
    simp [sourceAfterOverride, hsrc]
  constructor
  · intro p hp
    refine ⟨_, formatContact_branch H c src subs h1 h2 hb, ?_, ?_⟩
    · simp [adOf, hso, hp]
    · simp [keysOf, adOf, hso, hp]
  · intro hp
    refine ⟨_, formatContact_branch H c src subs h1 h2 hb, ?_, ?_⟩
    · simp [adOf, hso, hp]
    · simp [keysOf, adOf, hso, hp]

/-- Claim C8 witness: concrete linkedin contact with a conversion-event
name gets `ad` set to that value. -/
theorem c8_linkedin_ad_witness :
    ∃ fc, formatContact H0 c8c = some fc ∧ fc.ad = some (some ("Webinar X")) ∧
      ("ad") ∈ keysOf fc :=
  (c8_linkedin_ad H0 c8c { value := some ("OFFLINE") } [] rfl rfl (by decide) (by decide)).1
    { value := some ("Webinar X") } rfl

/-- Claim C3: the loop recurses exactly when the page reports more data
and neither stop index was found; a two-page run whose first page
continues and whose second page halts returns the accumulated retained
ENRICHED detail records of both pages in page order, of length the sum of
the two pages' retained counts. -/
theorem c3_two_page_loop (H : Helpers) (p1 p2 : PageData) (vs : Option Nat) (ts : Option Int)
    (acc e1 e2 : List Contact)
    (h1 : insertAddedDateOnDetailedContacts p1.contacts p1.details = some e1)
    (h2 : insertAddedDateOnDetailedContacts p2.contacts p2.details = some e2)
    (hm1 : p1.hasMore = true)
    (hv1 : vidStopIndexOf e1 vs = none)
    (ht1 : timeStopIndexOf e1 ts = none)
    (hf1 : (e1.mapM (formatContact H)).isSome = true)
    (hf2 : ((newContactsOf e2 vs ts).mapM (formatContact H)).isSome = true)
    (hhalt : (p2.hasMore && (vidStopIndexOf e2 vs).isNone
        && (timeStopIndexOf e2 ts).isNone) = false) :
    loopContacts H [p1, p2] vs ts acc = some (acc ++ e1 ++ newContactsOf e2 vs ts) ∧
    (acc ++ e1 ++ newContactsOf e2 vs ts).length
      = acc.length + e1.length + (newContactsOf e2 vs ts).length := by
  have hlen : ∀ (x y z : List Contact),
      (x ++ y ++ z).length = x.length + y.length + z.length := by
    intro x y z
    simp [List.length_append, Nat.add_assoc]
  obtain ⟨r1, hr1⟩ := Option.isSome_iff_exists.mp hf1
  obtain ⟨r2, hr2⟩ := Option.isSome_iff_exists.mp hf2
  have hne1 : newContactsOf e1 vs ts = e1 := newContactsOf_of_vid_none hv1
  constructor
  · simp only [loopContacts, h1, h2, hne1, hr1, hr2, hm1, hv1, ht1, hhalt,
      Option.isNone_none, Bool.and_true, Bool.true_and, if_true, Bool.false_eq_true,
      if_false]
  · exact hlen acc e1 (newContactsOf e2 vs ts)

/-- Claim C3 witness: the concrete two-page run (page 1 `hasMore = true`,
page 2 `hasMore = false`, no stop conditions) accumulates both pages. -/
theorem c3_two_page_loop_witness :
    loopContacts H0 [c3p1, c3p2] none none [] = some ([] ++ [c1e1] ++ newContactsOf [c3e2] none none) :=
  (c3_two_page_loop H0 c3p1 c3p2 none none [] [c1e1] [c3e2] rfl rfl rfl (by decide)
    (by decide) (by decide) (by decide) (by decide)).1

/-- Claim C4 counterexample: a deal whose dealstage id (`"lost"`) is
absent from its pipeline's stages does NOT make the resolver fail: the
deal is returned normally with `stage` undefined (`Array.find` yields
undefined at controllers.js 76-78 and the deal is still pushed),
contradicting the claim that such a deal makes the resolution fail. -/
theorem c4_counterexample :
    getDealsFromContact [10] c4pipelines c4fetch =
      some [{ dealId := 10
              properties := { pipeline := "default", dealstage := "lost" }
              pipeline := { pipelineId := "default", stages := [{ stageId := "won" }] }
              stage := none }] ∧
    ({ pipelineId := "default", stages := [{ stageId := "won" }] } : Pipeline).stages.find?
      (fun s => s.stageId == "lost") = none := by
  decide

/-- Claim C4 (amended): the resolver fails (propagates, does not skip)
when any associated deal references a pipeline id absent from the catalog;
a dealstage id absent from the resolved pipeline's stages does NOT fail --
the deal is returned with `stage` undefined; when every deal's pipeline
resolves, the output has one enriched deal per associated deal id, in
association-lookup order. -/
theorem c4_deal_resolution (ids : List Nat) (pipelines : List Pipeline)
    (getDeal : Nat → Option RawDeal) :
    ((∃ id ∈ ids, ∃ raw, getDeal id = some raw ∧
        pipelines.find? (fun p => p.pipelineId == raw.properties.pipeline) = none) →
      getDealsFromContact ids pipelines getDeal = none) ∧
    ((∀ id ∈ ids, ∃ raw pl, getDeal id = some raw ∧
        pipelines.find? (fun p => p.pipelineId == raw.properties.pipeline) = some pl) →
      ∃ deals, getDealsFromContact ids pipelines getDeal = some deals ∧
        deals.length = ids.length ∧
        ∀ i (hi : i < deals.length) (hi2 : i < ids.length),
          ∃ raw pl, getDeal (ids.get ⟨i, hi2⟩) = some raw ∧
            pipelines.find? (fun p => p.pipelineId == raw.properties.pipeline) = some pl ∧
            deals.get ⟨i, hi⟩ =
              { dealId := raw.dealId
                properties := raw.properties
                pipeline := pl
                stage := pl.stages.find? (fun s => s.stageId == raw.properties.dealstage) }) := by
  induction ids with
  | nil =>
    constructor
    · rintro ⟨id, hid, -⟩
      exact absurd hid (List.not_mem_nil id)
    · intro _
      exact ⟨[], rfl, rfl, fun i hi _ => absurd hi (by simp)⟩
  | cons x t ih =>
    constructor
    · rintro ⟨id, hid, raw, hraw, hpl⟩
      rcases List.mem_cons.mp hid with rfl | hmem
      · simp only [getDealsFromContact, hraw, hpl]
      · cases hgx : getDeal x with
        | none => simp only [getDealsFromContact, hgx]
        | some d =>
          cases hfx : pipelines.find? (fun p => p.pipelineId == d.properties.pipeline) with
          | none => simp only [getDealsFromContact, hgx, hfx]
          | some pl =>
            have hrec : getDealsFromContact t pipelines getDeal = none :=
              ih.1 ⟨id, hmem, raw, hraw, hpl⟩
            simp only [getDealsFromContact, hgx, hfx, hrec]
    · intro hall
      obtain ⟨raw, pl, hraw, hpl⟩ := hall x (List.mem_cons_self x t)
      obtain ⟨deals, hdeals, hlen, hidx⟩ :=
        ih.2 (fun id hid => hall id (List.mem_cons_of_mem x hid))
      refine ⟨{ dealId := raw.dealId
                properties := raw.properties
                pipeline := pl
                stage := pl.stages.find? (fun s => s.stageId == raw.properties.dealstage) }
          :: deals, ?_, by simp [hlen], ?_⟩
      · simp only [getDealsFromContact, hraw, hpl, hdeals]
      · intro i hi hi2
        cases i with
        | zero => exact ⟨raw, pl, hraw, hpl, rfl⟩
        | succ j =>
          exact hidx j (Nat.lt_of_succ_lt_succ hi) (Nat.lt_of_succ_lt_succ hi2)

/-- Claim C4 witness: a missing pipeline id fails the whole resolution;
a fully resolvable deal list yields one deal per id. -/
theorem c4_deal_resolution_witness :
    getDealsFromContact [11] c4pipelines c4fetch2 = none ∧
    ∃ deals, getDealsFromContact [10] c4pipelines c4fetch = some deals ∧
      deals.length = 1 := by
  constructor
  · exact (c4_deal_resolution [11] c4pipelines c4fetch2).1
      ⟨11, by decide, c4deal2, by decide, by decide⟩
  · obtain ⟨deals, hdeals, hlen, -⟩ := (c4_deal_resolution [10] c4pipelines c4fetch).2
      (by
        intro id hid
        have hid10 : id = 10 := by
          cases List.mem_singleton.mp hid
          rfl
        subst hid10
        exact ⟨c4deal, { pipelineId := "default", stages := [{ stageId := "won" }] },
          by decide, by decide⟩)
    exact ⟨deals, hdeals, by simpa using hlen⟩

/-- Claim C9: every enriched contact carries the `addedAt` of the summary
with the same vid that originated the detail fetch (details carry none of
their own), and the formatter renders it with `formattedDate`, the fixed
zero-padded `DD/MM/YYYY - HH:mm` rendering of the platform's
local-timezone calendar decomposition of that timestamp. -/
theorem c9_addedAt_join_format (H : Helpers) :
    (∀ (contacts : List Summary) (detailed : List Detail) (enriched : List Contact),
      insertAddedDateOnDetailedContacts contacts detailed = some enriched →
      enriched.length = detailed.length ∧
      ∀ i (hi : i < enriched.length) (hi2 : i < detailed.length),
        ∃ s, contacts.find? (fun c => c.vid == (detailed.get ⟨i, hi2⟩).vid) = some s ∧
          (enriched.get ⟨i, hi⟩).vid = (detailed.get ⟨i, hi2⟩).vid ∧
          (enriched.get ⟨i, hi⟩).addedAt = s.addedAt ∧
          ∀ fc, formatContact H (enriched.get ⟨i, hi⟩) = some fc →
            fc.addedAt = formattedDate H.localParts s.addedAt) ∧
    ∀ t, formattedDate H.localParts t =
      withZeros (H.localParts t).day ++ "/" ++ withZeros ((H.localParts t).month0 + 1)
        ++ "/" ++ withZeros (H.localParts t).year ++ " - " ++ withZeros (H.localParts t).hour
        ++ ":" ++ withZeros (H.localParts t).minute := by
  constructor
  · intro contacts detailed
    induction detailed with
    | nil =>
      intro enriched h
      rw [insertAddedDateOnDetailedContacts] at h
      injection h with h
      subst h
      exact ⟨rfl, fun i hi _ => absurd hi (by simp)⟩
    | cons dc rest ih =>
      intro enriched h
      rw [insertAddedDateOnDetailedContacts] at h
      cases hf : contacts.find? (fun c => c.vid == dc.vid) with
      | none =>
        rw [hf] at h
        exact Option.noConfusion h
      | some s =>
        rw [hf] at h
        cases ht : insertAddedDateOnDetailedContacts contacts rest with
        | none =>
          rw [ht] at h
          exact Option.noConfusion h
        | some tail =>
          rw [ht] at h
          injection h with h
          subst h
          obtain ⟨hlen, hidx⟩ := ih tail ht
          refine ⟨by simp [hlen], ?_⟩
          intro i hi hi2
          cases i with
          | zero =>
            refine ⟨s, hf, rfl, rfl, ?_⟩
            intro fc hfc
            exact formatContact_addedAt H
              { vid := dc.vid, properties := dc.properties,
                formSubmissions := dc.formSubmissions, addedAt := s.addedAt } fc hfc
          | succ j =>
            exact hidx j (Nat.lt_of_succ_lt_succ hi) (Nat.lt_of_succ_lt_succ hi2)
  · intro t
    rfl

/-- Claim C9 witness: the concrete join attaches `addedAt = 100` from the
summary with vid 1 and the formatter renders the sample decomposition as
a zero-padded date string. -/
theorem c9_addedAt_join_format_witness :
    insertAddedDateOnDetailedContacts [{ vid := 1, addedAt := 100 }] [c1d1] = some [c1e1] ∧
    ([c1e1] : List Contact).length = ([c1d1] : List Detail).length ∧
    formattedDate H0.localParts 0 = "05/03/2021 - 09:07" :=
  ⟨rfl,
   ((c9_addedAt_join_format H0).1 [{ vid := 1, addedAt := 100 }] [c1d1] [c1e1] rfl).1,
   by decide⟩

end Hubspot
